import Mathlib

/-!
# RouteLogger — verification of the core data-store / codec / sync spec

Shallow embedding of the RouteLogger sources (`src/js/db.js`,
`src/js/kmz-handler.js`, `src/js/firebase-ops.js`).  JavaScript numbers are
modelled as `JsNum` (NaN / ±Infinity / an exact rational), JSON-ish values as
`JVal`, binary blobs by the base64 data-URL strings the
`blob → FileReader.readAsDataURL` pipeline produces (so blob↔base64
conversions are identities in the model).  Browser / library calls that only
transport data (DOMParser, JSZip, toGeoJSON, Firebase network I/O, Date) are
represented by explicit inputs or function parameters of the embedded
operations; everything the repository itself computes is translated directly.
-/

namespace RouteLogger

/-- A JavaScript number: NaN, ±Infinity, or a finite value (kept exact as a
rational; none of the verified properties depend on double rounding). -/
inductive JsNum where
  | nan
  | inf
  | neginf
  | fin (q : ℚ)
deriving DecidableEq, Repr

/-- JavaScript `isNaN` on an already-numeric value. -/
def JsNum.isNaN : JsNum → Bool
  | .nan => true
  | _ => false

/-- A JSON-ish JavaScript value, as manipulated by the GeoJSON importer
(JSON numbers carry no NaN/Infinity, so they are plain rationals here). -/
inductive JVal where
  | undefined
  | jnull
  | boolv (b : Bool)
  | num (q : ℚ)
  | str (s : String)
  | arr (xs : List JVal)

/-- JavaScript truthiness. -/
def JVal.truthy : JVal → Bool
  | .undefined => false
  | .jnull => false
  | .boolv b => b
  | .num q => decide (q ≠ 0)
  | .str s => decide (s ≠ "")
  | .arr _ => true

/-- JavaScript strict equality `v === "s"` against a string literal. -/
def JVal.strictEqStr (v : JVal) (s : String) : Bool :=
  match v with
  | .str t => decide (t = s)
  | _ => false

/-- JavaScript `v || dflt`. -/
def jsOr (v dflt : JVal) : JVal := if v.truthy then v else dflt

/-- JavaScript `v || null`. -/
def jsOrNull (v : JVal) : JVal := if v.truthy then v else .jnull

/-- Digit run to a natural number. -/
def digitsToNat (cs : List Char) : ℕ :=
  cs.foldl (fun a c => a * 10 + (c.toNat - '0'.toNat)) 0

/-- JavaScript `parseFloat`: skip leading whitespace, optional sign, then the
longest prefix that is `Infinity`, or decimal digits with an optional
fractional part and an optional exponent; `NaN` when no numeric prefix
exists.  The value `±mantissa · 10^(exponent - fractionLength)` is built with
integer arithmetic and one `mkRat`. -/
def parseFloatJS (s : String) : JsNum :=
  let cs0 := s.data.dropWhile (·.isWhitespace)
  let signed : Bool × List Char :=
    match cs0 with
    | '-' :: t => (true, t)
    | '+' :: t => (false, t)
    | _ => (false, cs0)
  let neg := signed.1
  let cs := signed.2
  if "Infinity".data.isPrefixOf cs then
    if neg then .neginf else .inf
  else
    let intPart := cs.takeWhile (·.isDigit)
    let rest := cs.drop intPart.length
    let fracSplit : List Char × List Char :=
      match rest with
      | '.' :: t => (t.takeWhile (·.isDigit), t.drop (t.takeWhile (·.isDigit)).length)
      | _ => ([], rest)
    let fracPart := fracSplit.1
    let rest2 := fracSplit.2
    if intPart.isEmpty && fracPart.isEmpty then .nan
    else
      let m : ℕ := digitsToNat intPart * 10 ^ fracPart.length + digitsToNat fracPart
      let expo : ℤ :=
        match rest2 with
        | e :: t =>
          if e = 'e' || e = 'E' then
            let esigned : ℤ × List Char :=
              match t with
              | '-' :: u => (-1, u)
              | '+' :: u => (1, u)
              | _ => (1, t)
            let eds := esigned.2.takeWhile (·.isDigit)
            if eds.isEmpty then 0 else esigned.1 * (digitsToNat eds : ℤ)
          else 0
        | [] => 0
      let shift : ℤ := expo - fracPart.length
      let signedM : ℤ := if neg then -(m : ℤ) else (m : ℤ)
      .fin (if 0 ≤ shift then mkRat (signedM * 10 ^ shift.toNat) 1
            else mkRat signedM (10 ^ (-shift).toNat))

/-- Split a character list at every character satisfying `p` (the semantics
of `String.split`, including empty pieces around adjacent separators). -/
def charSplit (p : Char → Bool) (cs : List Char) : List (List Char) :=
  cs.foldr
    (fun c acc =>
      if p c then [] :: acc
      else
        match acc with
        | t :: rest => (c :: t) :: rest
        | [] => [[c]])
    [[]]

/-- Strip leading and trailing whitespace (JavaScript `trim`). -/
def jsTrim (s : String) : String :=
  String.mk (((s.data.dropWhile (·.isWhitespace)).reverse.dropWhile (·.isWhitespace)).reverse)

/-- JavaScript `text.split(/\s+/).filter(s => s.trim())`: the whitespace-free
tokens that survive the truthiness filter. -/
def wsTokens (s : String) : List String :=
  ((charSplit (·.isWhitespace) s.data).map String.mk).filter (fun t => jsTrim t ≠ "")

/-- Substring containment scan (JavaScript `s.includes(marker)`). -/
def listContainsSeq (needle : List Char) : List Char → Bool
  | [] => needle.isEmpty
  | c :: rest => needle.isPrefixOf (c :: rest) || listContainsSeq needle rest

/-- JavaScript `s.includes(marker)`. -/
def jsIncludes (s marker : String) : Bool :=
  listContainsSeq marker.data s.data

/-- JavaScript `s.split(',')` for a one-character separator. -/
def commaSplit (s : String) : List String :=
  (charSplit (· == ',') s.data).map String.mk

/-- Does `s` end with `suffixStr`? -/
def strEndsWith (s suffixStr : String) : Bool :=
  suffixStr.data.isSuffixOf s.data

/-- Evaluate `parseFloat(parts[i])`; a missing index gives `parseFloat(undefined) = NaN`. -/
def jsPartFloat (parts : List String) (i : ℕ) : JsNum :=
  match parts.get? i with
  | some p => parseFloatJS p
  | none => .nan

/-- The `coordinates` child text as the importer reads it:
`el.querySelector('coordinates')?.textContent.trim() || ''`. -/
def coordText : Option String → String
  | some t => jsTrim t
  | none => ""

/-- Case-insensitive prefix test on character lists (for the `/i` regex flag). -/
def isPrefixCI : List Char → List Char → Bool
  | [], _ => true
  | _ :: _, [] => false
  | a :: as, b :: bs => a.toLower == b.toLower && isPrefixCI as bs

/-- Does a quote-free run match the capture `[^"]+\.(?:jpg|jpeg|png|gif)`
(case-insensitive): it must end in one of the dotted extensions with at least
one character in front of that suffix. -/
def extMatch (run : List Char) : Bool :=
  let l := run.map Char.toLower
  [".jpg".data, ".jpeg".data, ".png".data, ".gif".data].any
    (fun e => e.isSuffixOf l && decide (e.length < l.length))

/-- First match of `/src="([^"]+\.(?:jpg|jpeg|png|gif))"/i` in a character
list: at each start position, after a (case-insensitive) `src="` the candidate
capture is the run up to the next `"`; the position matches iff that closing
quote exists and the run satisfies `extMatch`. -/
def imgSrcScan : List Char → Option String
  | [] => none
  | c :: rest =>
    if isPrefixCI "src=\"".data (c :: rest) then
      let after := (c :: rest).drop 5
      let run := after.takeWhile (· ≠ '"')
      let tl := after.drop run.length
      if !tl.isEmpty && extMatch run then
        some run.asString
      else imgSrcScan rest
    else imgSrcScan rest

/-- One entry of the packaged archive (a JSZip file); `content` is the base64
data-URL representation of the entry's bytes. -/
structure ZipEntry where
  name : String
  isDir : Bool
  content : String
deriving DecidableEq, Repr

/-- A parsed KML `Placemark`, as observed through the DOM queries the importer
makes: `querySelector('LineString')` / `querySelector('Point')` (outer
`Option` = element presence), their `coordinates` child text (inner `Option` =
child presence), and the `description` text. -/
structure Placemark where
  lineCoords : Option (Option String) := none
  pointCoords : Option (Option String) := none
  description : Option String := none
deriving DecidableEq, Repr

/-- A track point as reconstructed from KML (`parseFloat` results). -/
structure KPoint where
  lat : JsNum
  lng : JsNum
deriving DecidableEq, Repr

/-- A Track reconstructed by `importKmz`. -/
structure KTrack where
  timestamp : String
  points : List KPoint
  totalPoints : ℕ
deriving DecidableEq, Repr

/-- A Photo reconstructed by `importKmz` (`direction` and `text` are written
as `null` at this creation site). -/
structure KPhoto where
  data : String
  timestamp : String
  location : KPoint
deriving DecidableEq, Repr

/-- The coordinate pipeline of the LineString branch of `importKmz`:
split on whitespace, `parseFloat` each `lng,lat[,alt]` token, keep the pairs
whose two components are not NaN. -/
def lineTrackPoints (c : String) : List KPoint :=
  ((wsTokens c).map (fun tok =>
      let parts := commaSplit tok
      KPoint.mk (jsPartFloat parts 1) (jsPartFloat parts 0))).filter
    (fun p => !p.lat.isNaN && !p.lng.isNaN)

/-- One iteration of the Placemark loop in the native (RouteLogger-provenance)
branch of `importKmz`. -/
def kmzNativeStep (zip : List ZipEntry) (now : String) (pm : Placemark)
    (acc : List KTrack × List KPhoto) : List KTrack × List KPhoto :=
  match pm.lineCoords with
  | some c =>
    let pts := lineTrackPoints (coordText c)
    if pts.length > 0 then
      (acc.1 ++ [{ timestamp := now, points := pts, totalPoints := pts.length }], acc.2)
    else acc
  | none =>
    match pm.pointCoords with
    | some c =>
      let parts := commaSplit (coordText c)
      let lat := jsPartFloat parts 1
      let lng := jsPartFloat parts 0
      if lat.isNaN || lng.isNaN then acc
      else
        let desc := pm.description.getD ""
        let photoBase64 : Option String :=
          match imgSrcScan desc.data with
          | some p =>
            match zip.find? (fun e => e.name = p) with
            | some e => some e.content
            | none => none
          | none => none
        match photoBase64 with
        | some b =>
          if b ≠ "" then
            (acc.1, acc.2 ++ [{ data := b, timestamp := now, location := ⟨lat, lng⟩ }])
          else acc
        | none => acc
    | none => acc

/-- The whole Placemark loop of the native branch of `importKmz`. -/
def kmzNative (zip : List ZipEntry) (now : String) (pms : List Placemark) :
    List KTrack × List KPhoto :=
  pms.foldl (fun acc pm => kmzNativeStep zip now pm acc) ([], [])

/-- The property bag of a GeoJSON feature, restricted to the keys the code
reads or writes (`timestamp`, `photoData`, `direction`, `text`, `importId`);
an absent key is `undefined`. -/
structure GProps where
  timestamp : JVal := .undefined
  photoData : JVal := .undefined
  direction : JVal := .undefined
  text : JVal := .undefined
  importId : JVal := .undefined

/-- A GeoJSON geometry as the importer reads it (`geometry.type`,
`geometry.coordinates`). -/
structure GGeom where
  gtype : JVal := .undefined
  coordinates : JVal := .undefined

/-- A GeoJSON feature: `geometry` and `properties` may be absent. -/
structure GFeature where
  geometry : Option GGeom := none
  properties : Option GProps := none

/-- A top-level GeoJSON document as the importer reads it: `creator`, `type`,
`features`, and, for a bare `Feature`, its own `properties`. -/
structure GeoDoc where
  creator : JVal := .undefined
  dtype : JVal := .undefined
  features : Option (List GFeature) := none
  properties : Option GProps := none

/-- A persistence effect of an import: `saveExternalData` /
`saveExternalPhoto` (both live in `db.js`; the importer only appends rows). -/
inductive StoreEffect where
  | externalData (dtype : String) (name : String) (doc : GeoDoc)
  | externalPhoto (importId : String) (fileName : String) (blob : String)

/-- Tagging step of the foreign path: default the properties bag to an empty
object and set its `importId` attribute to the generated import identifier. -/
def setImportId (importId : String) (f : GFeature) : GFeature :=
  { f with properties := some { f.properties.getD {} with importId := .str importId } }

/-- The result of `importKmz`: a native (RouteLogger) reconstruction or a
foreign (`other`) generic document. -/
inductive KmzResult where
  | routeLogger (tracks : List KTrack) (photos : List KPhoto)
  | other (geojson : GeoDoc)

/-- The author marker `importKmz` searches the KML text for. -/
def kmzMarker : String := "<atom:name>RouteLogger</atom:name>"

/-- The file-name test for embedded image assets: `/\.(jpg|jpeg|png|gif)$/i`. -/
def imageExtTest (name : String) : Bool :=
  [".jpg".data, ".jpeg".data, ".png".data, ".gif".data].any
    (fun e => e.isSuffixOf (name.data.map Char.toLower))

/-- Function `importKmz` (kmz-handler.js).  External machinery appears as explicit
inputs: `zip` is the JSZip entry list, `domPlacemarks` the DOMParser view of
the KML text's placemarks, `toGeoJsonAvail` whether the `toGeoJSON` library is
loaded and `conv` its conversion result, `importId` the generated import
identifier and `now` the current time.  Returns the import result together
with the persistence effects performed. -/
def importKmz (zip : List ZipEntry) (domPlacemarks : List Placemark)
    (toGeoJsonAvail : Bool) (conv : GeoDoc) (fileName : String)
    (importId : String) (now : String) :
    Except String (KmzResult × List StoreEffect) :=
  match zip.find? (fun f => strEndsWith f.name ".kml") with
  | none => .error "no KML inside KMZ"
  | some kmlFile =>
    let isRouteLogger := jsIncludes kmlFile.content kmzMarker
    if isRouteLogger then
      let native := kmzNative zip now domPlacemarks
      .ok (.routeLogger native.1 native.2, [])
    else if !toGeoJsonAvail then .error "KML conversion library not loaded"
    else
      match conv.features with
      | none => .error "TypeError: cannot read features"
      | some fs =>
        let photoEffects :=
          ((zip.filter (fun f => !f.isDir && imageExtTest f.name)).map
            (fun f => StoreEffect.externalPhoto importId f.name f.content))
        let mutated := { conv with features := some (fs.map (setImportId importId)) }
        .ok (.other mutated, photoEffects ++ [.externalData "geojson" fileName mutated])

/-- JavaScript two-place array destructuring `const [a, b] = v`: arrays give
their first two elements (missing → `undefined`), strings iterate characters,
anything else throws a `TypeError`. -/
def destr2 : JVal → Except String (JVal × JVal)
  | .arr xs => .ok (xs.getD 0 .undefined, xs.getD 1 .undefined)
  | .str s =>
    .ok (match s.data.get? 0 with
          | some c => .str (String.mk [c])
          | none => .undefined,
         match s.data.get? 1 with
          | some c => .str (String.mk [c])
          | none => .undefined)
  | _ => .error "TypeError: not iterable"

/-- JavaScript `.map(([lng, lat]) => ...)` applied to the (`|| []`-guarded) coordinates
value: only an array has `.map`. -/
def jsMapPairs : JVal → Except String (List (JVal × JVal))
  | .arr xs => xs.mapM destr2
  | _ => .error "TypeError: map is not a function"

/-- A track point as reconstructed from GeoJSON (raw `JVal` components — the
importer performs no numeric validation here). -/
structure GPoint where
  lat : JVal
  lng : JVal

/-- A Track reconstructed by `importGeoJson`. -/
structure GTrack where
  timestamp : JVal
  points : List GPoint
  totalPoints : ℕ

/-- A Photo reconstructed by `importGeoJson`. -/
structure GPhoto where
  data : JVal
  timestamp : JVal
  location : GPoint
  direction : JVal
  text : JVal

/-- The result of `importGeoJson`. -/
inductive GeoResult where
  | routeLogger (tracks : List GTrack) (photos : List GPhoto)
  | other (geojson : GeoDoc)

/-- One iteration of the feature loop in the native branch of
`importGeoJson`. -/
def geoNativeStep (now : String) (acc : List GTrack × List GPhoto)
    (f : GFeature) : Except String (List GTrack × List GPhoto) :=
  let props := f.properties.getD {}
  let geom := f.geometry.getD {}
  let geomType : JVal := match f.geometry with
    | some g => g.gtype
    | none => .undefined
  if geomType.strictEqStr "LineString" then
    match jsMapPairs (jsOr geom.coordinates (.arr [])) with
    | .error e => .error e
    | .ok pairs =>
      let points := pairs.map (fun p => GPoint.mk p.2 p.1)
      if points.length > 0 then
        .ok (acc.1 ++ [{ timestamp := jsOr props.timestamp (.str now),
                         points := points, totalPoints := points.length }], acc.2)
      else .ok acc
  else if geomType.strictEqStr "Point" then
    match destr2 geom.coordinates with
    | .error e => .error e
    | .ok lnglat =>
      .ok (acc.1, acc.2 ++ [{ data := jsOrNull props.photoData,
                              timestamp := jsOr props.timestamp (.str now),
                              location := ⟨lnglat.2, lnglat.1⟩,
                              direction := jsOrNull props.direction,
                              text := jsOrNull props.text }])
  else .ok acc

/-- Function `importGeoJson` (kmz-handler.js): provenance is `creator === 'RouteLogger'`;
the native branch reconstructs Tracks/Photos without persisting, the foreign
branch tags every feature with the generated `importId` and persists the
document as one ExternalDataset row. -/
def importGeoJson (doc : GeoDoc) (fileName : String) (importId : String)
    (now : String) : Except String (GeoResult × List StoreEffect) :=
  if doc.creator.strictEqStr "RouteLogger" then
    match doc.features with
    | some fs =>
      match fs.foldlM (geoNativeStep now) ([], []) with
      | .error e => .error e
      | .ok acc => .ok (.routeLogger acc.1 acc.2, [])
    | none => .ok (.routeLogger [] [], [])
  else
    let doc2 :=
      match doc.features with
      | some fs => { doc with features := some (fs.map (setImportId importId)) }
      | none =>
        if doc.dtype.strictEqStr "Feature" then
          { doc with properties := some { doc.properties.getD {} with importId := .str importId } }
        else doc
    .ok (.other doc2, [.externalData "geojson" fileName doc2])

/-- An exact geographic position (a recorded GPS point). -/
structure QPoint where
  lat : ℚ
  lng : ℚ
deriving DecidableEq, Repr

/-- A Track record as stored in the local `tracks` collection (the
store-assigned `id` is managed by IndexedDB and not part of the record the
code builds). -/
structure DbTrack where
  timestamp : String
  points : List QPoint
  totalPoints : ℕ
deriving DecidableEq, Repr

/-- A Photo record as stored in the local `photos` collection. -/
structure DbPhoto where
  data : JVal
  timestamp : String
  location : Option QPoint
  direction : JVal
  text : JVal

/-- The record written by `createInitialTrack` (db.js): an empty track. -/
def createInitialTrackRecord (timestamp : String) : DbTrack :=
  { timestamp := timestamp, points := [], totalPoints := 0 }

/-- The record written by `saveTrackingDataRealtime` (db.js): whole-array
replacement of the current track's points. -/
def realtimeTrackRecord (trackingStartTime : String) (trackingData : List QPoint) :
    DbTrack :=
  { timestamp := trackingStartTime, points := trackingData,
    totalPoints := trackingData.length }

/-- The `lastPosition` settings row. -/
structure LastPos where
  lat : ℚ
  lng : ℚ
  zoom : ℚ
  timestamp : String
deriving DecidableEq, Repr

/-- The local store's collections (only the parts the verified operations
touch; `externals` rows are `StoreEffect.externalData` payloads). -/
structure Store where
  tracks : List DbTrack := []
  photos : List DbPhoto := []
  lastPosition : Option LastPos := none

/-- Model of `parseFloat(x.toFixed(5))`: round to five decimal places, ties away from
zero.  For `q = a/b`, `⌊|q|·100000 + 1/2⌋ = (200000·|a| + b) / (2·b)` is
computed with natural division and the sign re-applied. -/
def round5 (q : ℚ) : ℚ :=
  let n : ℤ :=
    if q.num < 0 then -(((200000 * q.num.natAbs + q.den) / (2 * q.den) : ℕ) : ℤ)
    else (((200000 * q.num.toNat + q.den) / (2 * q.den) : ℕ) : ℤ)
  mkRat n 100000

/-- The settings row built by `saveLastPosition` (db.js). -/
def saveLastPositionRecord (lat lng zoom : ℚ) (now : String) : LastPos :=
  { lat := round5 lat, lng := round5 lng, zoom := zoom, timestamp := now }

/-- Function `saveLastPosition` (db.js): a silent no-op when the store handle is not
open, otherwise an upsert of the single `lastPosition` row. -/
def saveLastPosition (st : Option Store) (lat lng zoom : ℚ) (now : String) :
    Option Store :=
  st.map (fun s => { s with lastPosition := some (saveLastPositionRecord lat lng zoom now) })

/-- Function `getLastPosition` (db.js): rejects when the store handle is not open,
otherwise returns the row or `null`. -/
def getLastPosition (st : Option Store) : Except String (Option LastPos) :=
  match st with
  | none => .error "database not initialized"
  | some s => .ok s.lastPosition

/-- A default map position (the `DEFAULT_POSITION` constant of `config.js`,
which is not under `src/`; carried as a parameter). -/
structure PosZoom where
  lat : ℚ
  lng : ℚ
  zoom : ℚ
deriving DecidableEq, Repr

/-- The delete-with-retry loop of `clearIndexedDBSilent`: `blocked` is the
number of initial `deleteDatabase` attempts reported blocked; returns the
backoff delays slept (ms) and whether deletion eventually succeeded.
`maxRetries = 3`; after a failed attempt the counter is bumped, a count of 3
throws, otherwise the loop sleeps `200 * retryCount` and tries again. -/
def deleteRetryGo (blocked : ℕ) : ℕ → ℕ → List ℕ × Bool
  | _, 0 => ([], false)
  | retryCount, fuel + 1 =>
    if retryCount < blocked then
      let rc := retryCount + 1
      if rc ≥ 3 then ([], false)
      else
        let rest := deleteRetryGo blocked rc fuel
        (200 * rc :: rest.1, rest.2)
    else ([], true)

/-- The delete loop entered with `retryCount = 0` (three attempts at most). -/
def deleteRetry (blocked : ℕ) : List ℕ × Bool := deleteRetryGo blocked 0 3

/-- Function `clearIndexedDBSilent` (db.js): capture `lastPosition`, close and delete
the database (bounded retry on blocked deletion), recreate an empty schema,
and re-seed `lastPosition` from the captured value or from the default
position.  Returns the backoff delays and the recreated store. -/
def clearIndexedDBSilent (st : Option Store) (blocked : ℕ) (defaultPos : PosZoom)
    (now : String) : Except String (List ℕ × Store) :=
  match st with
  | none => .error "database not initialized"
  | some s =>
    let captured := s.lastPosition
    let del := deleteRetry blocked
    if del.2 then
      let fresh : Store := {}
      let seeded :=
        match captured with
        | some p => { fresh with lastPosition := some (saveLastPositionRecord p.lat p.lng p.zoom now) }
        | none => { fresh with lastPosition := some (saveLastPositionRecord defaultPos.lat defaultPos.lng defaultPos.zoom now) }
      .ok (del.1, seeded)
    else .error "database in use"

/-- The GeoJSON feature the plain-document export emits for one Track.
Modelled from the spec: the plain-document exporter itself is not under
`src/` (only the importer is); per the spec it emits one `LineString` feature
per Track with `(longitude, latitude)` coordinate order and the timestamp as
a feature attribute. -/
def exportTrackFeature (t : DbTrack) : GFeature :=
  let g : GGeom :=
    { gtype := .str "LineString",
      coordinates := .arr (t.points.map (fun p => .arr [.num p.lng, .num p.lat])) }
  { geometry := some g, properties := some { timestamp := .str t.timestamp } }

/-- The GeoJSON feature the plain-document export emits for one Photo.
Modelled from the spec: one `Point` feature per Photo carrying `photoData`,
`direction`, `text` and `timestamp` as attributes; a missing location is
exported as `0,0` like the repository's KML exporter does. -/
def exportPhotoFeature (p : DbPhoto) : GFeature :=
  let loc := p.location.getD { lat := 0, lng := 0 }
  let g : GGeom :=
    { gtype := .str "Point",
      coordinates := .arr [.num loc.lng, .num loc.lat] }
  let pr : GProps :=
    { timestamp := .str p.timestamp, photoData := p.data,
      direction := p.direction, text := p.text }
  { geometry := some g, properties := some pr }

/-- Modelled from the spec: the plain-document (GeoJSON) export of the Geo
Codec, which is not under `src/`.  It emits a document with the top-level
`creator` marker `"RouteLogger"`, one line feature per Track and one point
feature per Photo. -/
def exportGeoJson (tracks : List DbTrack) (photos : List DbPhoto) : GeoDoc :=
  { creator := .str "RouteLogger",
    dtype := .str "FeatureCollection",
    features := some (tracks.map exportTrackFeature ++ photos.map exportPhotoFeature),
    properties := none }

/-- What a Track looks like after a perfect plain-document round-trip. -/
def embedTrack (t : DbTrack) : GTrack :=
  { timestamp := .str t.timestamp,
    points := t.points.map (fun p => ⟨.num p.lat, .num p.lng⟩),
    totalPoints := t.points.length }

/-- What a Photo looks like after a perfect plain-document round-trip. -/
def embedPhoto (p : DbPhoto) : GPhoto :=
  let loc := p.location.getD { lat := 0, lng := 0 }
  { data := p.data, timestamp := .str p.timestamp,
    location := ⟨.num loc.lat, .num loc.lng⟩,
    direction := p.direction, text := p.text }

/-- A value is `null` or truthy (so that the importer's `v || null`
normalisation leaves it unchanged). -/
def nullOrTruthy (v : JVal) : Prop := v = .jnull ∨ v.truthy = true

/-- One Firestore existence probe: empty/non-empty query result, or a raised
error carrying the Firebase error `code` string. -/
inductive ProbeOutcome where
  | ok (found : Bool)
  | err (code : String)

/-- The name-resolution loop of `getUniqueProjectName` (firebase-ops.js),
fuel-indexed to mirror the `while (true)`: probe the current candidate; an
empty result breaks with that candidate; a probe error also breaks with it
(both branches of the `catch` end in `break`); on collision the candidate
becomes `base_counter`, the counter is bumped and a counter above 100 aborts
with `null`.  Also returns the list of probed names. -/
def uniqueNameGo (probe : String → ProbeOutcome) (baseName : String) :
    String → ℕ → ℕ → List String × Option String
  | _, _, 0 => ([], none)
  | finalName, counter, fuel + 1 =>
    match probe finalName with
    | .ok false => ([finalName], some finalName)
    | .err _ => ([finalName], some finalName)
    | .ok true =>
      let nextName := baseName ++ "_" ++ toString counter
      if counter + 1 > 100 then ([finalName], none)
      else
        let rest := uniqueNameGo probe baseName nextName (counter + 1) fuel
        (finalName :: rest.1, rest.2)

/-- Function `getUniqueProjectName`: the loop entered at the base name with
`counter = 2` (the fuel 200 exceeds the 100-attempt cap). -/
def getUniqueProjectName (probe : String → ProbeOutcome) (baseName : String) :
    List String × Option String :=
  uniqueNameGo probe baseName baseName 2 200

/-- Modelled from the spec: `formatPositionData` lives in `utils.js`, which is
not under `src/`; the spec carries published point arrays "verbatim", so it is
the identity on positions. -/
def formatPositionData (p : QPoint) : QPoint := p

/-- A formatted photo entry of the remote project record: the uploaded blob
reference plus the photo's non-binary attributes. -/
structure FPhoto where
  url : String
  storagePath : String
  timestamp : String
  direction : JVal
  location : Option QPoint
  text : JVal

/-- The entry `uploadPhotosToStorage` pushes for a successfully uploaded
photo: `i` is the loop index, `urlOf i` the download URL the storage returns
and `toMillis` the `new Date(ts).getTime()` conversion. -/
def mkFPhoto (projectName : String) (toMillis : String → ℤ) (urlOf : ℕ → String)
    (i : ℕ) (p : DbPhoto) : FPhoto :=
  { url := urlOf i,
    storagePath := "tracks/" ++ projectName ++ "/photos/" ++ toString (toMillis p.timestamp) ++ ".jpg",
    timestamp := p.timestamp,
    direction := jsOrNull p.direction,
    location := p.location.map formatPositionData,
    text := jsOrNull p.text }

/-- The result of `uploadPhotosToStorage`. -/
structure UploadResult where
  formattedPhotos : List FPhoto
  uploadSuccessCount : ℕ
  uploadFailCount : ℕ

/-- The sequential upload loop: `uploadOk i` tells whether the `i`-th upload
attempt succeeds (network and blob decoding folded into one outcome); a
failure is counted and the loop moves on. -/
def uploadLoopGo (projectName : String) (toMillis : String → ℤ)
    (urlOf : ℕ → String) (uploadOk : ℕ → Bool) :
    ℕ → List DbPhoto → UploadResult
  | _, [] => { formattedPhotos := [], uploadSuccessCount := 0, uploadFailCount := 0 }
  | i, p :: rest =>
    let r := uploadLoopGo projectName toMillis urlOf uploadOk (i + 1) rest
    if uploadOk i then
      { formattedPhotos := mkFPhoto projectName toMillis urlOf i p :: r.formattedPhotos,
        uploadSuccessCount := r.uploadSuccessCount + 1,
        uploadFailCount := r.uploadFailCount }
    else
      { r with uploadFailCount := r.uploadFailCount + 1 }

/-- Function `uploadPhotosToStorage` (firebase-ops.js): with no authenticated user and
a non-empty photo list every upload is skipped and counted failed; otherwise
the photos are uploaded strictly sequentially. -/
def uploadPhotosToStorage (user : Option String) (projectName : String)
    (photos : List DbPhoto) (uploadOk : ℕ → Bool) (urlOf : ℕ → String)
    (toMillis : String → ℤ) : UploadResult :=
  match user with
  | none =>
    if photos.length > 0 then
      { formattedPhotos := [], uploadSuccessCount := 0, uploadFailCount := photos.length }
    else
      { formattedPhotos := [], uploadSuccessCount := 0, uploadFailCount := 0 }
  | some _ => uploadLoopGo projectName toMillis urlOf uploadOk 0 photos

/-- A formatted track of the remote project record. -/
structure FTrack where
  timestamp : String
  points : List QPoint
  totalPoints : ℕ

/-- The remote project record `saveToFirebase` writes (`createdAt` is a
server-assigned timestamp outside the model). -/
structure ProjectData where
  userId : Option String
  startTime : String
  tracks : List FTrack
  photos : List FPhoto
  tracksCount : ℕ
  photosCount : ℕ

/-- The externally visible actions of a publish, in order. -/
inductive FbEffect where
  | authCheck
  | probe (name : String)
  | uploadAttempt (i : ℕ)
  | writeRecord (name : String) (d : ProjectData)

/-- The outcome `saveToFirebase` reports. -/
inductive SaveResult where
  | noData
  | authError
  | cancelled
  | nameExhausted
  | saved (projectName : String) (record : ProjectData)
      (uploadSuccessCount uploadFailCount : ℕ)

/-- The ambient world a publish runs against: the in-memory session state,
the authenticated principal, the local dataset, and the remote I/O outcomes
(as functions, since they are external to the repository's code). -/
structure FbWorld where
  trackingStartTime : Option String
  auth : Option String
  probe : String → ProbeOutcome
  allTracks : List DbTrack
  allPhotos : List DbPhoto
  uploadOk : ℕ → Bool
  urlOf : ℕ → String
  toMillis : String → ℤ

/-- The project record built inside `saveToFirebase`: formatted tracks with
their point arrays, the successfully uploaded photo entries, and the
aggregate counts (`photosCount` counts all local photos read). -/
def publishRecord (w : FbWorld) (uid startTime projectName : String) : ProjectData :=
  { userId := some uid,
    startTime := startTime,
    tracks := w.allTracks.map (fun t =>
      { timestamp := t.timestamp,
        points := t.points.map formatPositionData,
        totalPoints := t.totalPoints }),
    photos := (uploadPhotosToStorage (some uid) projectName w.allPhotos
      w.uploadOk w.urlOf w.toMillis).formattedPhotos,
    tracksCount := w.allTracks.length,
    photosCount := w.allPhotos.length }

/-- Function `saveToFirebase` (firebase-ops.js): guard on a started recording session,
authentication check, base-name resolution (provided name, else the dialog's
answer), unique-name resolution, sequential photo upload with
partial-failure accounting, and the single project-record write.  Returns
the effect trace and the reported outcome. -/
def saveToFirebase (w : FbWorld) (providedName : String) (dialogName : String) :
    List FbEffect × SaveResult :=
  match w.trackingStartTime with
  | none => ([], .noData)
  | some startTime =>
    match w.auth with
    | none => ([.authCheck], .authError)
    | some uid =>
      let base := if providedName ≠ "" then providedName else dialogName
      if base = "" then ([.authCheck], .cancelled)
      else
        let resolved := getUniqueProjectName w.probe base
        let probeEffects := resolved.1.map FbEffect.probe
        match resolved.2 with
        | none => (.authCheck :: probeEffects, .nameExhausted)
        | some projectName =>
          let up := uploadPhotosToStorage (some uid) projectName w.allPhotos
            w.uploadOk w.urlOf w.toMillis
          let record := publishRecord w uid startTime projectName
          (.authCheck :: probeEffects
              ++ (List.range w.allPhotos.length).map FbEffect.uploadAttempt
              ++ [.writeRecord projectName record],
           .saved projectName record up.uploadSuccessCount up.uploadFailCount)

/-! ## Concrete instances used by witnesses and counterexamples -/

/-- A probe backed by a fixed set of existing remote project names. -/
def probeFor (names : List String) : String → ProbeOutcome :=
  fun n => .ok (names.contains n)

/-- A publish world whose probe reports every name as taken. -/
def allTakenWorld : FbWorld :=
  { trackingStartTime := some "2024-01-01T00:00:00Z", auth := some "uid1",
    probe := fun _ => .ok true, allTracks := [], allPhotos := [],
    uploadOk := fun _ => true, urlOf := fun _ => "", toMillis := fun _ => 0 }

/-- A publish world whose probe raises a non-authorization error. -/
def probeErrWorld : FbWorld :=
  { trackingStartTime := some "2024-01-01T00:00:00Z", auth := some "uid1",
    probe := fun _ => .err "unavailable", allTracks := [], allPhotos := [],
    uploadOk := fun _ => true, urlOf := fun _ => "", toMillis := fun _ => 0 }

/-- A sample photo record. -/
def samplePhoto (ts : String) : DbPhoto :=
  { data := .str "data:image/jpeg;base64,AAAA", timestamp := ts,
    location := some ⟨35, 136⟩, direction := .jnull, text := .jnull }

/-- A publish world with five photos whose second and fourth uploads fail. -/
def fivePhotoWorld : FbWorld :=
  { trackingStartTime := some "2024-01-01T00:00:00Z", auth := some "uid1",
    probe := fun _ => .ok false,
    allTracks := [{ timestamp := "T", points := [⟨34, 135⟩], totalPoints := 1 }],
    allPhotos := [samplePhoto "t0", samplePhoto "t1", samplePhoto "t2",
                  samplePhoto "t3", samplePhoto "t4"],
    uploadOk := fun i => !(i == 1 || i == 3), urlOf := fun i => "url" ++ toString i,
    toMillis := fun _ => 1700000000000 }

/-- A RouteLogger-provenance GeoJSON document holding a single Point feature
with an empty coordinates array (missing coordinates). -/
def emptyCoordPointDoc : GeoDoc :=
  { creator := .str "RouteLogger", dtype := .str "FeatureCollection",
    features := some [{ geometry := some { gtype := .str "Point", coordinates := .arr [] },
                        properties := none }] }

/-- A zero-point Track (as `createInitialTrack` leaves behind). -/
def emptyTrack : DbTrack := { timestamp := "2024-01-01T00:00:00Z", points := [], totalPoints := 0 }

/-- A photo whose `direction` is the number `0` (a falsy but meaningful
value). -/
def zeroDirPhoto : DbPhoto :=
  { data := .jnull, timestamp := "2024-01-02T00:00:00Z", location := some ⟨35, 136⟩,
    direction := .num 0, text := .jnull }

/-- A KMZ whose KML carries the RouteLogger author marker, plus one packaged
image. -/
def sampleZip : List ZipEntry :=
  [⟨"doc.kml", false, "<kml><atom:name>RouteLogger</atom:name></kml>"⟩,
   ⟨"images/photo_1.jpg", false, "data:image/jpeg;base64,QUJD"⟩]

/-- A KMZ whose KML carries no RouteLogger marker. -/
def foreignZip : List ZipEntry :=
  [⟨"doc.kml", false, "<kml><Document><name>other tool</name></Document></kml>"⟩,
   ⟨"images/a.png", false, "data:image/png;base64,QUJD"⟩]

/-- A line placemark with two valid points. -/
def linePm : Placemark := { lineCoords := some (some "135.1,34.2,0 135.3,34.4,0") }

/-- A line placemark whose coordinates are all non-numeric. -/
def badLinePm : Placemark := { lineCoords := some (some "x,y z,w") }

/-- A point placemark with a resolvable packaged image. -/
def photoPm : Placemark :=
  { pointCoords := some (some "135.5,34.6,0"),
    description := some "cap<img src=\"images/photo_1.jpg\" width=\"300\" />" }

/-- A point placemark with a non-numeric coordinate. -/
def badPointPm : Placemark :=
  { pointCoords := some (some "abc,34.6,0"), description := some "x" }

/-- The photo `importGeoJson` reconstructs from a Point feature with missing
coordinates and no properties (everything defaulted / undefined). -/
def undefLocPhoto : GPhoto :=
  { data := .jnull, timestamp := .str "now", location := ⟨.undefined, .undefined⟩,
    direction := .jnull, text := .jnull }

/-- What `zeroDirPhoto` comes back as after a plain-document round-trip: its
numeric direction `0` has been collapsed to `null` by the importer's
`props.direction || null`. -/
def zeroDirPhotoReimported : GPhoto :=
  { data := .jnull, timestamp := .str "2024-01-02T00:00:00Z",
    location := ⟨.num 35, .num 136⟩, direction := .jnull, text := .jnull }

/-- One feature of the foreign conversion result used by witnesses. -/
def foreignConvFeature : GFeature :=
  { geometry := some { gtype := .str "Point", coordinates := .arr [.num 135, .num 34] },
    properties := some { timestamp := .str "tsA" } }

/-- The toGeoJSON conversion result used by foreign-import witnesses. -/
def foreignConv : GeoDoc :=
  { dtype := .str "FeatureCollection", features := some [foreignConvFeature] }

/-- A sample track with two points. -/
def sampleTrack : DbTrack :=
  { timestamp := "2024-01-01T00:00:00Z",
    points := [⟨34, 135⟩, ⟨mkRat 341 10, mkRat 1351 10⟩], totalPoints := 2 }

/-- A pre-reset store holding a rounded `lastPosition`. -/
def preResetStore : Store :=
  { tracks := [sampleTrack], photos := [samplePhoto "t0"],
    lastPosition := some { lat := mkRat 3512345 100000, lng := mkRat 13567890 100000,
                           zoom := 16, timestamp := "2023-12-31T00:00:00Z" } }

/-- The tracks `importKmz sampleZip [linePm, photoPm] …` reconstructs. -/
def kmzSampleTracks : List KTrack :=
  [{ timestamp := "now",
     points := [⟨.fin (mkRat 342 10), .fin (mkRat 1351 10)⟩,
                ⟨.fin (mkRat 344 10), .fin (mkRat 1353 10)⟩],
     totalPoints := 2 }]

/-- The photos `importKmz sampleZip [linePm, photoPm] …` reconstructs. -/
def kmzSamplePhotos : List KPhoto :=
  [{ data := "data:image/jpeg;base64,QUJD", timestamp := "now",
     location := ⟨.fin (mkRat 346 10), .fin (mkRat 1355 10)⟩ }]

/-! ## Helper lemmas -/

theorem lineTrackPoints_not_nan (c : String) :
    ∀ p ∈ lineTrackPoints c, p.lat.isNaN = false ∧ p.lng.isNaN = false := by
  intro p hp
  unfold lineTrackPoints at hp
  have := List.of_mem_filter hp
  simp only [Bool.and_eq_true, Bool.not_eq_true'] at this
  exact this

theorem kmzNativeStep_track_cases (zip : List ZipEntry) (now : String) (pm : Placemark)
    (acc : List KTrack × List KPhoto) :
    ∀ t ∈ (kmzNativeStep zip now pm acc).1, t ∈ acc.1 ∨
      (t.totalPoints = t.points.length ∧ 0 < t.points.length ∧
       ∀ p ∈ t.points, p.lat.isNaN = false ∧ p.lng.isNaN = false) := by
  intro t ht
  unfold kmzNativeStep at ht
  cases hl : pm.lineCoords with
  | some c =>
    rw [hl] at ht
    dsimp only at ht
    by_cases hp : (lineTrackPoints (coordText c)).length > 0
    · rw [if_pos hp] at ht
      rcases List.mem_append.mp ht with h1 | h2
      · exact Or.inl h1
      · have ht2 := List.mem_singleton.mp h2
        subst ht2
        exact Or.inr ⟨rfl, hp, lineTrackPoints_not_nan (coordText c)⟩
    · rw [if_neg hp] at ht
      exact Or.inl ht
  | none =>
    rw [hl] at ht
    dsimp only at ht
    left
    split at ht
    · split at ht
      · exact ht
      · split at ht
        · split at ht
          · exact ht
          · exact ht
        · exact ht
    · exact ht

theorem kmzNativeStep_photo_cases (zip : List ZipEntry) (now : String) (pm : Placemark)
    (acc : List KTrack × List KPhoto) :
    ∀ ph ∈ (kmzNativeStep zip now pm acc).2, ph ∈ acc.2 ∨
      (ph.location.lat.isNaN = false ∧ ph.location.lng.isNaN = false) := by
  intro ph hph
  unfold kmzNativeStep at hph
  cases hl : pm.lineCoords with
  | some c =>
    rw [hl] at hph
    dsimp only at hph
    left
    split at hph <;> exact hph
  | none =>
    rw [hl] at hph
    dsimp only at hph
    cases hq : pm.pointCoords with
    | none => rw [hq] at hph; exact Or.inl hph
    | some c =>
      rw [hq] at hph
      dsimp only at hph
      by_cases hnan : (jsPartFloat (commaSplit (coordText c)) 1).isNaN
          || (jsPartFloat (commaSplit (coordText c)) 0).isNaN
      · rw [if_pos hnan] at hph
        exact Or.inl hph
      · rw [if_neg hnan] at hph
        simp only [Bool.or_eq_true, Bool.not_eq_true] at hnan
        push_neg at hnan
        split at hph
        · split at hph
          · rcases List.mem_append.mp hph with h1 | h2
            · exact Or.inl h1
            · have h3 := List.mem_singleton.mp h2
              subst h3
              refine Or.inr ⟨?_, ?_⟩
              · simpa using hnan.1
              · simpa using hnan.2
          · exact Or.inl hph
        · exact Or.inl hph

theorem kmzNative_fold_tracks {P : KTrack → Prop} (zip : List ZipEntry) (now : String)
    (hstep : ∀ pm acc, (∀ t ∈ acc.1, P t) → ∀ t ∈ (kmzNativeStep zip now pm acc).1, P t) :
    ∀ (pms : List Placemark) (acc : List KTrack × List KPhoto),
      (∀ t ∈ acc.1, P t) →
      ∀ t ∈ (pms.foldl (fun a pm => kmzNativeStep zip now pm a) acc).1, P t := by
  intro pms
  induction pms with
  | nil => intro acc h; simpa using h
  | cons pm rest ih =>
    intro acc h
    simpa using ih (kmzNativeStep zip now pm acc) (hstep pm acc h)

theorem kmzNative_fold_photos {P : KPhoto → Prop} (zip : List ZipEntry) (now : String)
    (hstep : ∀ pm acc, (∀ ph ∈ acc.2, P ph) → ∀ ph ∈ (kmzNativeStep zip now pm acc).2, P ph) :
    ∀ (pms : List Placemark) (acc : List KTrack × List KPhoto),
      (∀ ph ∈ acc.2, P ph) →
      ∀ ph ∈ (pms.foldl (fun a pm => kmzNativeStep zip now pm a) acc).2, P ph := by
  intro pms
  induction pms with
  | nil => intro acc h; simpa using h
  | cons pm rest ih =>
    intro acc h
    simpa using ih (kmzNativeStep zip now pm acc) (hstep pm acc h)

theorem jsOrNull_id {v : JVal} (h : nullOrTruthy v) : jsOrNull v = v := by
  rcases h with h | h
  · subst h; rfl
  · simp [jsOrNull, h]

theorem mapM_destr2_pairs (pts : List QPoint) :
    (pts.map (fun p => JVal.arr [.num p.lng, .num p.lat])).mapM destr2 =
      .ok (pts.map (fun p => (JVal.num p.lng, JVal.num p.lat))) := by
  induction pts with
  | nil => rfl
  | cons p rest ih =>
    simp only [List.map_cons, List.mapM_cons, ih]
    rfl

theorem geoStep_export_track (now : String) (t : DbTrack) (acc : List GTrack × List GPhoto)
    (hpts : t.points ≠ []) (hts : t.timestamp ≠ "") :
    geoNativeStep now acc (exportTrackFeature t) = .ok (acc.1 ++ [embedTrack t], acc.2) := by
  unfold geoNativeStep exportTrackFeature
  simp only [Option.getD_some]
  rw [show (JVal.str "LineString").strictEqStr "LineString" = true by rfl]
  simp only [if_true]
  rw [show jsOr (JVal.arr (t.points.map (fun p => JVal.arr [.num p.lng, .num p.lat]))) (.arr []) =
      JVal.arr (t.points.map (fun p => JVal.arr [.num p.lng, .num p.lat])) from rfl]
  rw [show jsMapPairs (JVal.arr (t.points.map (fun p => JVal.arr [.num p.lng, .num p.lat]))) =
      (t.points.map (fun p => JVal.arr [.num p.lng, .num p.lat])).mapM destr2 from rfl]
  rw [mapM_destr2_pairs]
  simp only [List.map_map]
  have hlen : 0 < (t.points.map ((fun p => GPoint.mk p.2 p.1) ∘ fun p => (JVal.num p.lng, JVal.num p.lat))).length := by
    simpa [List.length_map, List.length_pos] using hpts
  rw [if_pos hlen]
  have hjs : jsOr (JVal.str t.timestamp) (.str now) = .str t.timestamp := by
    simp [jsOr, JVal.truthy, hts]
  simp only [hjs, embedTrack]
  simp [Function.comp]

theorem geoStep_export_photo (now : String) (p : DbPhoto) (acc : List GTrack × List GPhoto)
    (hd : nullOrTruthy p.data) (hdir : nullOrTruthy p.direction)
    (htx : nullOrTruthy p.text) (hts : p.timestamp ≠ "") :
    geoNativeStep now acc (exportPhotoFeature p) = .ok (acc.1, acc.2 ++ [embedPhoto p]) := by
  unfold geoNativeStep exportPhotoFeature
  simp only [Option.getD_some]
  rw [show (JVal.str "Point").strictEqStr "LineString" = false by rfl]
  simp only [Bool.false_eq_true, if_false]
  rw [show (JVal.str "Point").strictEqStr "Point" = true by rfl]
  simp only [if_true]
  have hjs : jsOr (JVal.str p.timestamp) (.str now) = .str p.timestamp := by
    simp [jsOr, JVal.truthy, hts]
  simp only [destr2, hjs, jsOrNull_id hd, jsOrNull_id hdir, jsOrNull_id htx, embedPhoto]
  rfl

theorem geoFold_export_photos (now : String) :
    ∀ photos : List DbPhoto,
      (∀ p ∈ photos, nullOrTruthy p.data ∧ nullOrTruthy p.direction ∧
        nullOrTruthy p.text ∧ p.timestamp ≠ "") →
      ∀ acc : List GTrack × List GPhoto,
        (photos.map exportPhotoFeature).foldlM (geoNativeStep now) acc =
          .ok (acc.1, acc.2 ++ photos.map embedPhoto) := by
  intro photos
  induction photos with
  | nil => intro _ acc; simp [List.foldlM_nil]; rfl
  | cons p rest ih =>
    intro hph acc
    have hp := hph p (List.mem_cons_self p rest)
    rw [List.map_cons, List.foldlM_cons,
      geoStep_export_photo now p acc hp.1 hp.2.1 hp.2.2.1 hp.2.2.2]
    have hbind : ((Except.ok (acc.1, acc.2 ++ [embedPhoto p]) : Except String (List GTrack × List GPhoto)) >>=
        (rest.map exportPhotoFeature).foldlM (geoNativeStep now)) =
        (rest.map exportPhotoFeature).foldlM (geoNativeStep now) (acc.1, acc.2 ++ [embedPhoto p]) := rfl
    rw [hbind, ih (fun q hq => hph q (List.mem_cons_of_mem p hq))]
    simp

theorem geoFold_export (now : String) :
    ∀ tracks : List DbTrack, ∀ photos : List DbPhoto,
      (∀ t ∈ tracks, t.points ≠ []) → (∀ t ∈ tracks, t.timestamp ≠ "") →
      (∀ p ∈ photos, nullOrTruthy p.data ∧ nullOrTruthy p.direction ∧
        nullOrTruthy p.text ∧ p.timestamp ≠ "") →
      ∀ acc : List GTrack × List GPhoto,
        (tracks.map exportTrackFeature ++ photos.map exportPhotoFeature).foldlM
          (geoNativeStep now) acc =
        .ok (acc.1 ++ tracks.map embedTrack, acc.2 ++ photos.map embedPhoto) := by
  intro tracks
  induction tracks with
  | nil =>
    intro photos _ _ hph acc
    rw [List.map_nil, List.nil_append, geoFold_export_photos now photos hph acc]
    simp
  | cons t rest ih =>
    intro photos htp hts hph acc
    have ht1 := htp t (List.mem_cons_self t rest)
    have ht2 := hts t (List.mem_cons_self t rest)
    rw [List.map_cons, List.cons_append, List.foldlM_cons,
      geoStep_export_track now t acc ht1 ht2]
    have hbind : ((Except.ok (acc.1 ++ [embedTrack t], acc.2) : Except String (List GTrack × List GPhoto)) >>=
        (rest.map exportTrackFeature ++ photos.map exportPhotoFeature).foldlM (geoNativeStep now)) =
        (rest.map exportTrackFeature ++ photos.map exportPhotoFeature).foldlM (geoNativeStep now)
          (acc.1 ++ [embedTrack t], acc.2) := rfl
    rw [hbind, ih photos (fun q hq => htp q (List.mem_cons_of_mem t hq))
          (fun q hq => hts q (List.mem_cons_of_mem t hq)) hph]
    simp

theorem geoNativeStep_track_cases (now : String) (acc : List GTrack × List GPhoto)
    (f : GFeature) (acc' : List GTrack × List GPhoto)
    (h : geoNativeStep now acc f = .ok acc') :
    ∀ t ∈ acc'.1, t ∈ acc.1 ∨ t.totalPoints = t.points.length := by
  intro t ht
  unfold geoNativeStep at h
  cases hg : f.geometry with
  | some g =>
    rw [hg] at h
    dsimp only at h
    split at h
    · split at h
      · exact absurd h (by simp)
      · split at h
        · cases h
          rcases List.mem_append.mp ht with h1 | h2
          · exact Or.inl h1
          · have h3 := List.mem_singleton.mp h2
            subst h3
            exact Or.inr rfl
        · cases h
          exact Or.inl ht
    · split at h
      · split at h
        · exact absurd h (by simp)
        · cases h
          exact Or.inl ht
      · cases h
        exact Or.inl ht
  | none =>
    rw [hg] at h
    simp only [JVal.strictEqStr] at h
    cases h
    exact Or.inl ht

theorem geoFold_track_inv (now : String) :
    ∀ (fs : List GFeature) (acc res : List GTrack × List GPhoto),
      fs.foldlM (geoNativeStep now) acc = .ok res →
      (∀ t ∈ acc.1, t.totalPoints = t.points.length) →
      ∀ t ∈ res.1, t.totalPoints = t.points.length := by
  intro fs
  induction fs with
  | nil =>
    intro acc res h hacc
    rw [List.foldlM_nil] at h
    cases h
    exact hacc
  | cons f rest ih =>
    intro acc res h hacc
    rw [List.foldlM_cons] at h
    cases hstep : geoNativeStep now acc f with
    | error e => rw [hstep] at h; exact absurd h (by simp [Bind.bind, Except.bind])
    | ok acc' =>
      rw [hstep] at h
      have hbind : ((Except.ok acc' : Except String (List GTrack × List GPhoto)) >>=
          rest.foldlM (geoNativeStep now)) = rest.foldlM (geoNativeStep now) acc' := rfl
      rw [hbind] at h
      exact ih acc' res h (fun t ht =>
        (geoNativeStep_track_cases now acc f acc' hstep t ht).elim (hacc t) id)

theorem uploadLoopGo_eq (pn : String) (tm : String → ℤ) (urlOf : ℕ → String)
    (ok : ℕ → Bool) :
    ∀ (photos : List DbPhoto) (i : ℕ),
      uploadLoopGo pn tm urlOf ok i photos =
        { formattedPhotos := ((List.enumFrom i photos).filter (fun e => ok e.1)).map
            (fun e => mkFPhoto pn tm urlOf e.1 e.2),
          uploadSuccessCount := ((List.enumFrom i photos).filter (fun e => ok e.1)).length,
          uploadFailCount := ((List.enumFrom i photos).filter (fun e => !ok e.1)).length } := by
  intro photos
  induction photos with
  | nil => intro i; rfl
  | cons p rest ih =>
    intro i
    rw [show uploadLoopGo pn tm urlOf ok i (p :: rest) =
        (let r := uploadLoopGo pn tm urlOf ok (i + 1) rest
         if ok i then
           { formattedPhotos := mkFPhoto pn tm urlOf i p :: r.formattedPhotos,
             uploadSuccessCount := r.uploadSuccessCount + 1,
             uploadFailCount := r.uploadFailCount }
         else { r with uploadFailCount := r.uploadFailCount + 1 }) from rfl]
    rw [ih (i + 1)]
    by_cases hok : ok i
    · simp [List.enumFrom, hok]
    · simp [List.enumFrom, hok]

/-! ## Claim theorems -/

/-- C1: every Track record written to the local store by a store mutation —
the empty track `createInitialTrack` creates, the whole-array replacement
`saveTrackingDataRealtime` writes, and every track reconstructed by
`importKmz` or `importGeoJson` for later insertion — satisfies
`totalPoints = length points`. -/
theorem c1_totalPoints_invariant :
    (∀ ts, (createInitialTrackRecord ts).totalPoints =
      (createInitialTrackRecord ts).points.length)
    ∧ (∀ ts pts, (realtimeTrackRecord ts pts).totalPoints =
      (realtimeTrackRecord ts pts).points.length)
    ∧ (∀ zip pms avail conv fn iid now tracks photos effs,
        importKmz zip pms avail conv fn iid now = .ok (.routeLogger tracks photos, effs) →
        ∀ t ∈ tracks, t.totalPoints = t.points.length)
    ∧ (∀ doc fn iid now tracks photos effs,
        importGeoJson doc fn iid now = .ok (.routeLogger tracks photos, effs) →
        ∀ t ∈ tracks, t.totalPoints = t.points.length) := by
  refine ⟨fun _ => rfl, fun _ _ => rfl, ?_, ?_⟩
  · intro zip pms avail conv fn iid now tracks photos effs h
    unfold importKmz at h
    cases hf : zip.find? (fun f => strEndsWith f.name ".kml") with
    | none => rw [hf] at h; exact absurd h (by simp)
    | some k =>
      rw [hf] at h
      dsimp only at h
      by_cases hm : jsIncludes k.content kmzMarker = true
      · rw [if_pos hm] at h
        simp only [Except.ok.injEq, Prod.mk.injEq, KmzResult.routeLogger.injEq] at h
        obtain ⟨⟨h1, h2⟩, h3⟩ := h
        subst h1
        intro t ht
        refine kmzNative_fold_tracks (P := fun t => t.totalPoints = t.points.length)
          zip now ?_ pms ([], []) (by simp) t ht
        intro pm acc hacc t' ht'
        rcases kmzNativeStep_track_cases zip now pm acc t' ht' with hmem | hnew
        · exact hacc t' hmem
        · exact hnew.1
      · rw [if_neg hm] at h
        by_cases ha : avail
        · simp only [ha, Bool.not_true, Bool.false_eq_true, if_false] at h
          cases hc : conv.features with
          | none => rw [hc] at h; exact absurd h (by simp)
          | some fs => rw [hc] at h; exact absurd h (by simp)
        · simp only [Bool.not_eq_true] at ha
          simp only [ha, Bool.not_false, if_true] at h
          exact absurd h (by simp)
  · intro doc fn iid now tracks photos effs h
    unfold importGeoJson at h
    by_cases hc : doc.creator.strictEqStr "RouteLogger" = true
    · rw [if_pos hc] at h
      cases hfs : doc.features with
      | none =>
        rw [hfs] at h
        dsimp only at h
        simp only [Except.ok.injEq, Prod.mk.injEq, GeoResult.routeLogger.injEq] at h
        obtain ⟨⟨h1, h2⟩, h3⟩ := h
        subst h1
        intro t ht
        exact absurd ht (by simp)
      | some fs =>
        rw [hfs] at h
        dsimp only at h
        cases hfold : fs.foldlM (geoNativeStep now) ([], []) with
        | error e => rw [hfold] at h; exact absurd h (by simp)
        | ok acc =>
          rw [hfold] at h
          simp only [Except.ok.injEq, Prod.mk.injEq, GeoResult.routeLogger.injEq] at h
          obtain ⟨⟨h1, h2⟩, h3⟩ := h
          subst h1
          intro t ht
          exact geoFold_track_inv now fs ([], []) acc hfold (by simp) t ht
    · rw [if_neg hc] at h
      exact absurd h (by simp)

/-- Witness for C1 at concrete inputs: a fresh initial track, a realtime
replacement with one point, the sample KMZ import, and a round-tripped
GeoJSON import. -/
theorem c1_totalPoints_invariant_witness :
    ((createInitialTrackRecord "2024-01-01T00:00:00Z").totalPoints =
      (createInitialTrackRecord "2024-01-01T00:00:00Z").points.length)
    ∧ ((realtimeTrackRecord "2024-01-01T00:00:00Z" [⟨34, 135⟩]).totalPoints =
      (realtimeTrackRecord "2024-01-01T00:00:00Z" [⟨34, 135⟩]).points.length)
    ∧ (∀ t ∈ kmzSampleTracks, t.totalPoints = t.points.length)
    ∧ (∀ t ∈ [embedTrack sampleTrack], t.totalPoints = t.points.length) :=
  ⟨c1_totalPoints_invariant.1 "2024-01-01T00:00:00Z",
   c1_totalPoints_invariant.2.1 "2024-01-01T00:00:00Z" [⟨34, 135⟩],
   c1_totalPoints_invariant.2.2.1 sampleZip [linePm, photoPm] true {} "f.kmz" "imp" "now"
     kmzSampleTracks kmzSamplePhotos [] rfl,
   c1_totalPoints_invariant.2.2.2 (exportGeoJson [sampleTrack] []) "f" "imp" "now"
     [embedTrack sampleTrack] [] [] rfl⟩

/-- C2: import routes every document to exactly one of two paths, decided
solely by the creator marker.  Archive: a KML containing the RouteLogger
author marker is returned as a native result with no persistence effect,
while a KML without it is persisted as exactly one ExternalDataset row (plus
its image assets) and returned as a foreign result.  Plain document: a
top-level `creator` equal to `"RouteLogger"` yields a native result with no
persistence, anything else is persisted as exactly one ExternalDataset row
and returned foreign. -/
theorem c2_provenance_routing :
    (∀ zip pms avail conv fn iid now k,
      zip.find? (fun f => strEndsWith f.name ".kml") = some k →
      jsIncludes k.content kmzMarker = true →
      importKmz zip pms avail conv fn iid now =
        .ok (.routeLogger (kmzNative zip now pms).1 (kmzNative zip now pms).2, []))
    ∧ (∀ zip pms conv fn iid now k fs,
      zip.find? (fun f => strEndsWith f.name ".kml") = some k →
      jsIncludes k.content kmzMarker = false →
      conv.features = some fs →
      ∃ doc2, importKmz zip pms true conv fn iid now =
        .ok (.other doc2,
          ((zip.filter (fun f => !f.isDir && imageExtTest f.name)).map
            (fun f => StoreEffect.externalPhoto iid f.name f.content))
          ++ [.externalData "geojson" fn doc2]))
    ∧ (∀ doc fn iid now r effs,
      doc.creator.strictEqStr "RouteLogger" = true →
      importGeoJson doc fn iid now = .ok (r, effs) →
      (∃ tr ph, r = .routeLogger tr ph) ∧ effs = [])
    ∧ (∀ doc fn iid now,
      doc.creator.strictEqStr "RouteLogger" = false →
      ∃ doc2, importGeoJson doc fn iid now =
        .ok (.other doc2, [.externalData "geojson" fn doc2])) := by
  refine ⟨?_, ?_, ?_, ?_⟩
  · intro zip pms avail conv fn iid now k hf hm
    unfold importKmz
    rw [hf]
    dsimp only
    rw [if_pos hm]
  · intro zip pms conv fn iid now k fs hf hm hfs
    unfold importKmz
    rw [hf]
    dsimp only
    rw [if_neg (by simp [hm]), hfs]
    exact ⟨_, rfl⟩
  · intro doc fn iid now r effs hc h
    unfold importGeoJson at h
    rw [if_pos hc] at h
    cases hfs : doc.features with
    | none =>
      rw [hfs] at h
      dsimp only at h
      simp only [Except.ok.injEq, Prod.mk.injEq] at h
      exact ⟨⟨[], [], h.1.symm⟩, h.2.symm⟩
    | some fs =>
      rw [hfs] at h
      dsimp only at h
      cases hfold : fs.foldlM (geoNativeStep now) ([], []) with
      | error e => rw [hfold] at h; exact absurd h (by simp)
      | ok acc =>
        rw [hfold] at h
        simp only [Except.ok.injEq, Prod.mk.injEq] at h
        exact ⟨⟨acc.1, acc.2, h.1.symm⟩, h.2.symm⟩
  · intro doc fn iid now hc
    unfold importGeoJson
    rw [if_neg (by simp [hc])]
    exact ⟨_, rfl⟩

/-- Witness for C2: the sample RouteLogger KMZ and a foreign KMZ, a
RouteLogger-creator GeoJSON and a creator-less GeoJSON. -/
theorem c2_provenance_routing_witness :
    (importKmz sampleZip [linePm, photoPm] true {} "f.kmz" "imp" "now" =
      .ok (.routeLogger (kmzNative sampleZip "now" [linePm, photoPm]).1
        (kmzNative sampleZip "now" [linePm, photoPm]).2, []))
    ∧ (∃ doc2, importKmz foreignZip [] true foreignConv "g.kmz" "imp2" "now" =
        .ok (.other doc2,
          ((foreignZip.filter (fun f => !f.isDir && imageExtTest f.name)).map
            (fun f => StoreEffect.externalPhoto "imp2" f.name f.content))
          ++ [.externalData "geojson" "g.kmz" doc2]))
    ∧ ((∃ tr ph, (GeoResult.routeLogger [] [undefLocPhoto]) = .routeLogger tr ph)
        ∧ ([] : List StoreEffect) = [])
    ∧ (∃ doc2, importGeoJson foreignConv "h.geojson" "imp3" "now" =
        .ok (.other doc2, [.externalData "geojson" "h.geojson" doc2])) :=
  ⟨c2_provenance_routing.1 sampleZip [linePm, photoPm] true {} "f.kmz" "imp" "now"
     ⟨"doc.kml", false, "<kml><atom:name>RouteLogger</atom:name></kml>"⟩ rfl rfl,
   c2_provenance_routing.2.1 foreignZip [] foreignConv "g.kmz" "imp2" "now"
     ⟨"doc.kml", false, "<kml><Document><name>other tool</name></Document></kml>"⟩
     [foreignConvFeature] rfl rfl rfl,
   c2_provenance_routing.2.2.1 emptyCoordPointDoc "h.geojson" "imp3" "now"
     (.routeLogger [] [undefLocPhoto]) [] rfl rfl,
   c2_provenance_routing.2.2.2 foreignConv "h.geojson" "imp3" "now" rfl⟩

/-- C3: with `"trip"` existing remotely, the base name `"trip"` resolves to
`"trip_2"`; with `"trip_2"` also existing it resolves to `"trip_3"`; and when
every candidate collides the counter exceeds the 100-attempt bound, name
resolution yields `null`, and the publish ends `nameExhausted` with an effect
trace that contains no project-record write. -/
theorem c3_publish_name_resolution :
    ((getUniqueProjectName (probeFor ["trip"]) "trip").2 = some "trip_2")
    ∧ ((getUniqueProjectName (probeFor ["trip", "trip_2"]) "trip").2 = some "trip_3")
    ∧ ((getUniqueProjectName (fun _ => .ok true) "trip").2 = none)
    ∧ (∃ ps : List String, saveToFirebase allTakenWorld "trip" "x" =
        (FbEffect.authCheck :: ps.map FbEffect.probe, .nameExhausted)) :=
  ⟨rfl, rfl, rfl,
   ⟨(getUniqueProjectName (fun _ => ProbeOutcome.ok true) "trip").1, rfl⟩⟩

/-- C6 counterexample: a probe that raises a non-authorization error
(`code = "unavailable"`) does not abort the publish — resolution proceeds
with the current candidate name and the project record is written. -/
theorem c6_probe_error_counterexample :
    (getUniqueProjectName (fun _ => .err "unavailable") "trip" = (["trip"], some "trip"))
    ∧ ("unavailable" : String) ≠ "permission-denied"
    ∧ (∃ effs record sc fc, saveToFirebase probeErrWorld "trip" "x" =
        (effs, .saved "trip" record sc fc) ∧ FbEffect.writeRecord "trip" record ∈ effs) := by
  refine ⟨rfl, by decide, ⟨_, _, _, _, rfl, ?_⟩⟩
  simp

/-- C6 (amended): during publish name resolution, a probe error of any kind —
authorization denial or not — is treated as "the name does not exist": the
loop breaks and resolution proceeds with the current candidate name; no probe
error aborts the publish. -/
theorem c6_probe_error_amended :
    (∀ (probe : String → ProbeOutcome) (baseName name : String) (counter fuel : ℕ)
       (code : String), probe name = .err code →
       uniqueNameGo probe baseName name counter (fuel + 1) = ([name], some name))
    ∧ (∀ (probe : String → ProbeOutcome) (baseName code : String),
       probe baseName = .err code →
       getUniqueProjectName probe baseName = ([baseName], some baseName)) := by
  constructor
  · intro probe baseName name counter fuel code h
    unfold uniqueNameGo
    rw [h]
  · intro probe baseName code h
    unfold getUniqueProjectName uniqueNameGo
    rw [h]

/-- Witness for C6 (amended) at a concrete erroring probe. -/
theorem c6_probe_error_amended_witness :
    (uniqueNameGo (fun _ => .err "unavailable") "trip" "trip_2" 3 (197 + 1) =
      (["trip_2"], some "trip_2"))
    ∧ (getUniqueProjectName (fun _ => .err "internal") "trip" = (["trip"], some "trip")) :=
  ⟨c6_probe_error_amended.1 (fun _ => .err "unavailable") "trip" "trip_2" 3 197
     "unavailable" rfl,
   c6_probe_error_amended.2 (fun _ => .err "internal") "trip" "internal" rfl⟩

/-- C10: publish invoked with no started recording session (null tracking
start time) returns immediately: no authentication check, no probe, no
upload attempt, no record write — the effect trace is empty. -/
theorem c10_publish_requires_session (w : FbWorld) (pv dn : String)
    (h : w.trackingStartTime = none) :
    saveToFirebase w pv dn = ([], .noData) := by
  unfold saveToFirebase
  rw [h]

/-- Witness for C10: a world with photos, tracks and a working probe, but no
recording session. -/
theorem c10_publish_requires_session_witness :
    saveToFirebase { allTakenWorld with trackingStartTime := none } "trip" "x" =
      ([], .noData) :=
  c10_publish_requires_session { allTakenWorld with trackingStartTime := none }
    "trip" "x" rfl

theorem saveToFirebase_eq (w : FbWorld) (pv dn st uid pn : String)
    (h1 : w.trackingStartTime = some st) (h2 : w.auth = some uid)
    (h3 : ¬(if pv ≠ "" then pv else dn) = "")
    (h4 : (getUniqueProjectName w.probe (if pv ≠ "" then pv else dn)).2 = some pn) :
    saveToFirebase w pv dn =
      (FbEffect.authCheck ::
        (getUniqueProjectName w.probe (if pv ≠ "" then pv else dn)).1.map FbEffect.probe
        ++ (List.range w.allPhotos.length).map FbEffect.uploadAttempt
        ++ [FbEffect.writeRecord pn (publishRecord w uid st pn)],
       .saved pn (publishRecord w uid st pn)
         (uploadPhotosToStorage (some uid) pn w.allPhotos w.uploadOk w.urlOf
           w.toMillis).uploadSuccessCount
         (uploadPhotosToStorage (some uid) pn w.allPhotos w.uploadOk w.urlOf
           w.toMillis).uploadFailCount) := by
  unfold saveToFirebase
  rw [h1, h2]
  dsimp only
  rw [if_neg h3, h4]

theorem uploadCounts (uid pn : String) (photos : List DbPhoto) (ok : ℕ → Bool)
    (urlOf : ℕ → String) (tm : String → ℤ) :
    (uploadPhotosToStorage (some uid) pn photos ok urlOf tm).formattedPhotos =
      ((List.enumFrom 0 photos).filter (fun e => ok e.1)).map
        (fun e => mkFPhoto pn tm urlOf e.1 e.2)
    ∧ (uploadPhotosToStorage (some uid) pn photos ok urlOf tm).uploadSuccessCount =
      ((List.enumFrom 0 photos).filter (fun e => ok e.1)).length
    ∧ (uploadPhotosToStorage (some uid) pn photos ok urlOf tm).uploadFailCount =
      ((List.enumFrom 0 photos).filter (fun e => !ok e.1)).length
    ∧ (uploadPhotosToStorage (some uid) pn photos ok urlOf tm).uploadSuccessCount
      + (uploadPhotosToStorage (some uid) pn photos ok urlOf tm).uploadFailCount =
      photos.length := by
  have h := uploadLoopGo_eq pn tm urlOf ok photos 0
  have hu : uploadPhotosToStorage (some uid) pn photos ok urlOf tm =
      uploadLoopGo pn tm urlOf ok 0 photos := rfl
  rw [hu, h]
  refine ⟨rfl, rfl, rfl, ?_⟩
  have hsplit := (List.enumFrom 0 photos).length_eq_length_filter_add (fun e => ok e.1)
  have hlen : (List.enumFrom 0 photos).length = photos.length := by
    simp [List.enumFrom_length]
  dsimp only
  omega

/-- C4: during publish, each photo upload failure is counted without aborting
the remaining uploads: with `n` local photos of which `k` uploads fail, the
upload step reports `uploadSuccessCount = n - k` and `uploadFailCount = k`,
the formatted entries are exactly the successfully uploaded photos (in
order), and the written project record's `photos` array has exactly `n - k`
entries. -/
theorem c4_partial_upload_failure (w : FbWorld) (pv dn st uid pn : String)
    (h1 : w.trackingStartTime = some st) (h2 : w.auth = some uid)
    (h3 : ¬(if pv ≠ "" then pv else dn) = "")
    (h4 : (getUniqueProjectName w.probe (if pv ≠ "" then pv else dn)).2 = some pn) :
    let n := w.allPhotos.length
    let k := ((List.enumFrom 0 w.allPhotos).filter (fun e => !w.uploadOk e.1)).length
    let up := uploadPhotosToStorage (some uid) pn w.allPhotos w.uploadOk w.urlOf w.toMillis
    up.uploadSuccessCount = n - k
    ∧ up.uploadFailCount = k
    ∧ up.formattedPhotos =
        ((List.enumFrom 0 w.allPhotos).filter (fun e => w.uploadOk e.1)).map
          (fun e => mkFPhoto pn w.toMillis w.urlOf e.1 e.2)
    ∧ (saveToFirebase w pv dn).2 = .saved pn (publishRecord w uid st pn)
        up.uploadSuccessCount up.uploadFailCount
    ∧ (publishRecord w uid st pn).photos.length = n - k := by
  intro n k up
  obtain ⟨hf, hs, hfl, htot⟩ :=
    uploadCounts uid pn w.allPhotos w.uploadOk w.urlOf w.toMillis
  have hsk : up.uploadSuccessCount = n - k := by
    have : up.uploadSuccessCount + up.uploadFailCount = n := htot
    have : up.uploadFailCount = k := hfl
    omega
  refine ⟨hsk, hfl, hf, ?_, ?_⟩
  · rw [saveToFirebase_eq w pv dn st uid pn h1 h2 h3 h4]
  · have hrp : (publishRecord w uid st pn).photos = up.formattedPhotos := rfl
    rw [hrp, hf, List.length_map, ← hs]
    exact hsk

/-- Witness for C4: five photos, uploads 1 and 3 failing — publish reports
`uploadSuccessCount = 3`, `uploadFailCount = 2`, and the record holds exactly
3 photo entries. -/
theorem c4_partial_upload_failure_witness :
    let up := uploadPhotosToStorage (some "uid1") "trip" fivePhotoWorld.allPhotos
      fivePhotoWorld.uploadOk fivePhotoWorld.urlOf fivePhotoWorld.toMillis
    up.uploadSuccessCount = 5 - 2
    ∧ up.uploadFailCount = 2
    ∧ up.formattedPhotos =
        ((List.enumFrom 0 fivePhotoWorld.allPhotos).filter
          (fun e => fivePhotoWorld.uploadOk e.1)).map
          (fun e => mkFPhoto "trip" fivePhotoWorld.toMillis fivePhotoWorld.urlOf e.1 e.2)
    ∧ (saveToFirebase fivePhotoWorld "trip" "x").2 =
        .saved "trip" (publishRecord fivePhotoWorld "uid1" "2024-01-01T00:00:00Z" "trip")
          up.uploadSuccessCount up.uploadFailCount
    ∧ (publishRecord fivePhotoWorld "uid1" "2024-01-01T00:00:00Z" "trip").photos.length = 5 - 2 :=
  c4_partial_upload_failure fivePhotoWorld "trip" "x" "2024-01-01T00:00:00Z" "uid1" "trip"
    rfl rfl (by decide) rfl

/-- C9 (implicit): in the remote record written by publish, `photosCount` is
the total number of local photos read (upload failures included) while the
`photos` array holds only the successfully uploaded entries; hence
`photosCount = length photos + uploadFailCount`, and any upload failure makes
`photosCount` differ from the number of stored photo entries. -/
theorem c9_photosCount_counts_failures (w : FbWorld) (pv dn st uid pn : String)
    (h1 : w.trackingStartTime = some st) (h2 : w.auth = some uid)
    (h3 : ¬(if pv ≠ "" then pv else dn) = "")
    (h4 : (getUniqueProjectName w.probe (if pv ≠ "" then pv else dn)).2 = some pn) :
    let up := uploadPhotosToStorage (some uid) pn w.allPhotos w.uploadOk w.urlOf w.toMillis
    let record := publishRecord w uid st pn
    (saveToFirebase w pv dn).2 = .saved pn record up.uploadSuccessCount up.uploadFailCount
    ∧ record.photosCount = w.allPhotos.length
    ∧ record.photosCount = record.photos.length + up.uploadFailCount
    ∧ (up.uploadFailCount ≠ 0 → record.photosCount ≠ record.photos.length) := by
  intro up record
  obtain ⟨hf, hs, hfl, htot⟩ :=
    uploadCounts uid pn w.allPhotos w.uploadOk w.urlOf w.toMillis
  have hrp : record.photos = up.formattedPhotos := rfl
  have hrc : record.photosCount = w.allPhotos.length := rfl
  have htot' : up.uploadSuccessCount + up.uploadFailCount = w.allPhotos.length := htot
  have hlen : record.photos.length = up.uploadSuccessCount := by
    rw [hrp]
    have hf' : up.formattedPhotos =
        ((List.enumFrom 0 w.allPhotos).filter (fun e => w.uploadOk e.1)).map
          (fun e => mkFPhoto pn w.toMillis w.urlOf e.1 e.2) := hf
    have hs' : up.uploadSuccessCount =
        ((List.enumFrom 0 w.allPhotos).filter (fun e => w.uploadOk e.1)).length := hs
    rw [hf', List.length_map, hs']
  refine ⟨?_, hrc, ?_, ?_⟩
  · rw [saveToFirebase_eq w pv dn st uid pn h1 h2 h3 h4]
  · rw [hrc, hlen]
    omega
  · intro hk
    rw [hrc, hlen]
    omega

/-- Witness for C9: the five-photo world with two failures — `photosCount`
stays 5 while only 3 photo entries are stored. -/
theorem c9_photosCount_counts_failures_witness :
    let up := uploadPhotosToStorage (some "uid1") "trip" fivePhotoWorld.allPhotos
      fivePhotoWorld.uploadOk fivePhotoWorld.urlOf fivePhotoWorld.toMillis
    let record := publishRecord fivePhotoWorld "uid1" "2024-01-01T00:00:00Z" "trip"
    (saveToFirebase fivePhotoWorld "trip" "x").2 =
        .saved "trip" record up.uploadSuccessCount up.uploadFailCount
    ∧ record.photosCount = fivePhotoWorld.allPhotos.length
    ∧ record.photosCount = record.photos.length + up.uploadFailCount
    ∧ (up.uploadFailCount ≠ 0 → record.photosCount ≠ record.photos.length) :=
  c9_photosCount_counts_failures fivePhotoWorld "trip" "x" "2024-01-01T00:00:00Z"
    "uid1" "trip" rfl rfl (by decide) rfl

/-- C7: full reset captures the `lastPosition` row before deleting the store,
deletes and recreates it, and re-seeds `lastPosition` from the captured value
(or the default position when none was stored), so that a read after the
reset returns the pre-reset position (its `lat`/`lng` already being 5-decimal
rounded, as `saveLastPosition` always writes them) or the default; when the
deletion keeps being reported blocked it is attempted 3 times with
increasing backoff delays (200 ms, 400 ms) before the error is surfaced. -/
theorem c7_full_reset (s : Store) (blocked : ℕ) (d : PosZoom) (now : String) :
    (∀ p, blocked < 3 → s.lastPosition = some p →
      round5 p.lat = p.lat → round5 p.lng = p.lng →
      ∃ sleeps s2, clearIndexedDBSilent (some s) blocked d now = .ok (sleeps, s2)
        ∧ s2.tracks = [] ∧ s2.photos = []
        ∧ getLastPosition (some s2) =
            .ok (some { lat := p.lat, lng := p.lng, zoom := p.zoom, timestamp := now }))
    ∧ (blocked < 3 → s.lastPosition = none →
      round5 d.lat = d.lat → round5 d.lng = d.lng →
      ∃ sleeps s2, clearIndexedDBSilent (some s) blocked d now = .ok (sleeps, s2)
        ∧ getLastPosition (some s2) =
            .ok (some { lat := d.lat, lng := d.lng, zoom := d.zoom, timestamp := now }))
    ∧ (3 ≤ blocked →
      clearIndexedDBSilent (some s) blocked d now = .error "database in use"
      ∧ deleteRetry blocked = ([200 * 1, 200 * 2], false)) := by
  refine ⟨?_, ?_, ?_⟩
  · intro p hb hp hlat hlng
    have hdel : (deleteRetry blocked).2 = true := by
      interval_cases blocked <;> rfl
    refine ⟨(deleteRetry blocked).1,
      { tracks := [], photos := [],
        lastPosition := some (saveLastPositionRecord p.lat p.lng p.zoom now) }, ?_, rfl, rfl, ?_⟩
    · unfold clearIndexedDBSilent
      dsimp only
      rw [hp, hdel]
      rfl
    · unfold getLastPosition saveLastPositionRecord
      rw [hlat, hlng]
  · intro hb hp hlat hlng
    have hdel : (deleteRetry blocked).2 = true := by
      interval_cases blocked <;> rfl
    refine ⟨(deleteRetry blocked).1,
      { tracks := [], photos := [],
        lastPosition := some (saveLastPositionRecord d.lat d.lng d.zoom now) }, ?_, ?_⟩
    · unfold clearIndexedDBSilent
      dsimp only
      rw [hp, hdel]
      rfl
    · unfold getLastPosition saveLastPositionRecord
      rw [hlat, hlng]
  · intro hb
    have h0 : 0 < blocked := by omega
    have h1 : 1 < blocked := by omega
    have h2 : 2 < blocked := by omega
    have hdel : deleteRetry blocked = ([200 * 1, 200 * 2], false) := by
      unfold deleteRetry deleteRetryGo
      rw [if_pos h0]
      simp only [show ¬(0 + 1 ≥ 3) by omega, if_false]
      unfold deleteRetryGo
      rw [if_pos h1]
      simp only [show ¬(1 + 1 ≥ 3) by omega, if_false]
      unfold deleteRetryGo
      rw [if_pos h2]
      simp only [show (2 + 1 ≥ 3) by omega, if_true]
    refine ⟨?_, hdel⟩
    unfold clearIndexedDBSilent
    dsimp only
    rw [hdel]
    rfl

/-- Witness for C7: a store holding a rounded position, one blocked deletion
attempt; an empty-settings store; and a persistently blocked deletion. -/
theorem c7_full_reset_witness :
    (∃ sleeps s2, clearIndexedDBSilent (some preResetStore) 1 ⟨34, 135, 14⟩ "now" =
        .ok (sleeps, s2)
      ∧ s2.tracks = [] ∧ s2.photos = []
      ∧ getLastPosition (some s2) =
          .ok (some { lat := mkRat 3512345 100000, lng := mkRat 13567890 100000,
                      zoom := 16, timestamp := "now" }))
    ∧ (∃ sleeps s2, clearIndexedDBSilent (some { preResetStore with lastPosition := none })
        0 ⟨34, 135, 14⟩ "now" = .ok (sleeps, s2)
      ∧ getLastPosition (some s2) =
          .ok (some { lat := 34, lng := 135, zoom := 14, timestamp := "now" }))
    ∧ (clearIndexedDBSilent (some preResetStore) 5 ⟨34, 135, 14⟩ "now" =
        .error "database in use"
      ∧ deleteRetry 5 = ([200 * 1, 200 * 2], false)) :=
  ⟨(c7_full_reset preResetStore 1 ⟨34, 135, 14⟩ "now").1
     { lat := mkRat 3512345 100000, lng := mkRat 13567890 100000,
       zoom := 16, timestamp := "2023-12-31T00:00:00Z" }
     (by decide) rfl rfl rfl,
   (c7_full_reset { preResetStore with lastPosition := none } 0 ⟨34, 135, 14⟩ "now").2.1
     (by decide) rfl rfl rfl,
   (c7_full_reset preResetStore 5 ⟨34, 135, 14⟩ "now").2.2 (by omega)⟩

/-- C5 counterexample: in the plain-document format, a RouteLogger-provenance
Point feature with missing coordinates (an empty coordinates array) is NOT
dropped — the importer keeps a Photo with undefined location components,
contradicting the claim that such a Photo is dropped in both formats. -/
theorem c5_invalid_coords_counterexample :
    importGeoJson emptyCoordPointDoc "f.geojson" "imp" "now" =
      .ok (.routeLogger [] [undefLocPhoto], [])
    ∧ ¬(importGeoJson emptyCoordPointDoc "f.geojson" "imp" "now" =
      .ok (.routeLogger [] [], [])) := by
  refine ⟨rfl, ?_⟩
  intro h
  have h2 : (Except.ok (.routeLogger [] [undefLocPhoto], [])
      : Except String (GeoResult × List StoreEffect)) =
      .ok (.routeLogger [] [], []) := by
    rw [← h]
    rfl
  simp only [Except.ok.injEq, Prod.mk.injEq, GeoResult.routeLogger.injEq] at h2
  exact absurd h2.1.2 (by simp)

/-- C5 (amended): in the archive format, coordinate pairs whose latitude or
longitude parses as NaN are dropped, a Track left with zero valid points is
dropped entirely, and a Point placemark with a NaN coordinate yields no
Photo — all without throwing (the native branch always returns `ok`) and
without affecting sibling placemarks (a placemark the filters reject leaves
the import result of its siblings unchanged).  The plain-document importer
performs no such filtering. -/
theorem c5_archive_coordinate_filtering :
    (∀ zip now pms, ∀ t ∈ (kmzNative zip now pms).1,
      0 < t.points.length ∧
      ∀ p ∈ t.points, p.lat.isNaN = false ∧ p.lng.isNaN = false)
    ∧ (∀ zip now pms, ∀ ph ∈ (kmzNative zip now pms).2,
      ph.location.lat.isNaN = false ∧ ph.location.lng.isNaN = false)
    ∧ (∀ zip pms avail conv fn iid now k,
      zip.find? (fun f => strEndsWith f.name ".kml") = some k →
      jsIncludes k.content kmzMarker = true →
      ∃ tr ph, importKmz zip pms avail conv fn iid now = .ok (.routeLogger tr ph, []))
    ∧ (∀ zip now pms1 pms2 pm, (∀ acc, kmzNativeStep zip now pm acc = acc) →
      kmzNative zip now (pms1 ++ pm :: pms2) = kmzNative zip now (pms1 ++ pms2))
    ∧ (∀ zip now pm c, pm.lineCoords = some c →
      lineTrackPoints (coordText c) = [] →
      ∀ acc, kmzNativeStep zip now pm acc = acc)
    ∧ (∀ zip now pm c, pm.lineCoords = none → pm.pointCoords = some c →
      ((jsPartFloat (commaSplit (coordText c)) 1).isNaN
        || (jsPartFloat (commaSplit (coordText c)) 0).isNaN) = true →
      ∀ acc, kmzNativeStep zip now pm acc = acc) := by
  refine ⟨?_, ?_, ?_, ?_, ?_, ?_⟩
  · intro zip now pms t ht
    refine kmzNative_fold_tracks
      (P := fun t => 0 < t.points.length ∧
        ∀ p ∈ t.points, p.lat.isNaN = false ∧ p.lng.isNaN = false)
      zip now ?_ pms ([], []) (by simp) t ht
    intro pm acc hacc t' ht'
    rcases kmzNativeStep_track_cases zip now pm acc t' ht' with hmem | hnew
    · exact hacc t' hmem
    · exact ⟨hnew.2.1, hnew.2.2⟩
  · intro zip now pms ph hph
    refine kmzNative_fold_photos
      (P := fun ph => ph.location.lat.isNaN = false ∧ ph.location.lng.isNaN = false)
      zip now ?_ pms ([], []) (by simp) ph hph
    intro pm acc hacc ph' hph'
    rcases kmzNativeStep_photo_cases zip now pm acc ph' hph' with hmem | hnew
    · exact hacc ph' hmem
    · exact hnew
  · intro zip pms avail conv fn iid now k hf hm
    refine ⟨(kmzNative zip now pms).1, (kmzNative zip now pms).2, ?_⟩
    unfold importKmz
    rw [hf]
    dsimp only
    rw [if_pos hm]
  · intro zip now pms1 pms2 pm hid
    unfold kmzNative
    rw [List.foldl_append, List.foldl_append, List.foldl_cons, hid]
  · intro zip now pm c hl hpts acc
    unfold kmzNativeStep
    rw [hl]
    dsimp only
    rw [hpts]
    rfl
  · intro zip now pm c hl hq hnan acc
    unfold kmzNativeStep
    rw [hl, hq]
    dsimp only
    rw [if_pos hnan]

/-- Witness for C5 (amended): the sample import (tracks and photos all
valid), a no-throw run, and concrete invalid placemarks that leave siblings
untouched. -/
theorem c5_archive_coordinate_filtering_witness :
    (∀ t ∈ (kmzNative sampleZip "now" [linePm, badLinePm, photoPm]).1,
      0 < t.points.length ∧
      ∀ p ∈ t.points, p.lat.isNaN = false ∧ p.lng.isNaN = false)
    ∧ (∀ ph ∈ (kmzNative sampleZip "now" [linePm, badLinePm, photoPm]).2,
      ph.location.lat.isNaN = false ∧ ph.location.lng.isNaN = false)
    ∧ (∃ tr ph, importKmz sampleZip [linePm, badLinePm, badPointPm, photoPm] true {}
        "f.kmz" "imp" "now" = .ok (.routeLogger tr ph, []))
    ∧ (kmzNative sampleZip "now" ([linePm] ++ badLinePm :: [photoPm]) =
        kmzNative sampleZip "now" ([linePm] ++ [photoPm]))
    ∧ (∀ acc, kmzNativeStep sampleZip "now" badLinePm acc = acc)
    ∧ (∀ acc, kmzNativeStep sampleZip "now" badPointPm acc = acc) :=
  ⟨c5_archive_coordinate_filtering.1 sampleZip "now" [linePm, badLinePm, photoPm],
   c5_archive_coordinate_filtering.2.1 sampleZip "now" [linePm, badLinePm, photoPm],
   c5_archive_coordinate_filtering.2.2.1 sampleZip [linePm, badLinePm, badPointPm, photoPm]
     true {} "f.kmz" "imp" "now"
     ⟨"doc.kml", false, "<kml><atom:name>RouteLogger</atom:name></kml>"⟩ rfl rfl,
   c5_archive_coordinate_filtering.2.2.2.1 sampleZip "now" [linePm] [photoPm] badLinePm
     (c5_archive_coordinate_filtering.2.2.2.2.1 sampleZip "now" badLinePm
       (some "x,y z,w") rfl rfl),
   c5_archive_coordinate_filtering.2.2.2.2.1 sampleZip "now" badLinePm
     (some "x,y z,w") rfl rfl,
   c5_archive_coordinate_filtering.2.2.2.2.2 sampleZip "now" badPointPm
     (some "abc,34.6,0") rfl rfl rfl⟩

/-- C8 counterexample: the plain-document round-trip is not the identity for
every Track/Photo set.  Exporting a zero-point Track and a Photo whose
`direction` is the number `0` and re-importing drops the Track entirely
(zero-point tracks are filtered) and nulls the direction (the importer's
`props.direction || null` collapses the falsy `0`), so the faithful
reconstruction `(.routeLogger [embedTrack emptyTrack] [embedPhoto zeroDirPhoto])`
is not what comes back. -/
theorem c8_roundtrip_counterexample :
    importGeoJson (exportGeoJson [emptyTrack] [zeroDirPhoto]) "f" "imp" "now" =
      .ok (.routeLogger [] [zeroDirPhotoReimported], [])
    ∧ zeroDirPhoto.direction = .num 0
    ∧ zeroDirPhotoReimported.direction = .jnull
    ∧ ¬(importGeoJson (exportGeoJson [emptyTrack] [zeroDirPhoto]) "f" "imp" "now" =
      .ok (.routeLogger ([emptyTrack].map embedTrack) ([zeroDirPhoto].map embedPhoto), [])) := by
  refine ⟨rfl, rfl, rfl, ?_⟩
  intro h
  have h2 : (Except.ok (.routeLogger [] [zeroDirPhotoReimported], [])
      : Except String (GeoResult × List StoreEffect)) =
      .ok (.routeLogger ([emptyTrack].map embedTrack) ([zeroDirPhoto].map embedPhoto), []) := by
    rw [← h]
    rfl
  simp only [List.map_cons, List.map_nil, Except.ok.injEq, Prod.mk.injEq,
    GeoResult.routeLogger.injEq] at h2
  exact absurd h2.1.1 (by simp)

/-- C8 (amended): the plain-document round-trip reproduces every Track's
point sequence and timestamp and every Photo's attributes exactly, provided
each Track has at least one point and a non-empty timestamp and each Photo's
`data`/`direction`/`text` are null-or-truthy with a non-empty timestamp (a
Photo without a location comes back with the exporter's `0,0` placeholder,
as `embedPhoto` spells out). -/
theorem c8_roundtrip_amended (tracks : List DbTrack) (photos : List DbPhoto)
    (fn iid now : String)
    (htp : ∀ t ∈ tracks, t.points ≠ []) (hts : ∀ t ∈ tracks, t.timestamp ≠ "")
    (hph : ∀ p ∈ photos, nullOrTruthy p.data ∧ nullOrTruthy p.direction ∧
      nullOrTruthy p.text ∧ p.timestamp ≠ "") :
    importGeoJson (exportGeoJson tracks photos) fn iid now =
      .ok (.routeLogger (tracks.map embedTrack) (photos.map embedPhoto), []) := by
  unfold importGeoJson
  rw [show (exportGeoJson tracks photos).creator.strictEqStr "RouteLogger" = true from rfl]
  rw [if_pos rfl]
  rw [show (exportGeoJson tracks photos).features =
      some (tracks.map exportTrackFeature ++ photos.map exportPhotoFeature) from rfl]
  dsimp only
  rw [geoFold_export now tracks photos htp hts hph ([], [])]
  simp

/-- Witness for C8 (amended): one two-point track and one photo with caption
and direction round-trip exactly. -/
theorem c8_roundtrip_amended_witness :
    importGeoJson (exportGeoJson [sampleTrack] [samplePhoto "tP"]) "f" "imp" "now" =
      .ok (.routeLogger [embedTrack sampleTrack] [embedPhoto (samplePhoto "tP")], []) :=
  c8_roundtrip_amended [sampleTrack] [samplePhoto "tP"] "f" "imp" "now"
    (by intro t ht; rw [List.mem_singleton.mp ht]; simp [sampleTrack])
    (by intro t ht; rw [List.mem_singleton.mp ht]; simp [sampleTrack])
    (by
      intro p hp
      rw [List.mem_singleton.mp hp]
      refine ⟨Or.inr ?_, Or.inl rfl, Or.inl rfl, by simp [samplePhoto]⟩
      rfl)

end RouteLogger
